import Mathlib

/-!
Shallow embedding of the ThinkAboutWealth.com client scripts.

The repository consists of two variants of the daily-selector script
(`src/unnamed/part_000` and `src/unnamed/part_001`), the archive script
(`src/unnamed/part_002`) and the theme controller (`src/js/theme.js`).
JavaScript numbers holding timestamps, indices and day counts are modelled
as `Int`; the JavaScript `%` operator is truncated remainder, modelled by
`Int.tmod`, and `Math.floor` of an integer quotient is modelled by
`Int.fdiv`.  Strings are modelled as `List Char`.
-/

/-- CONFIG.msPerDay from both selector variants: 86400000 milliseconds. -/
def msPerDay : Int := 86400000

/-- CONFIG.startEpoch from `src/unnamed/part_001`: `Date.UTC(2025, 11, 20)`,
the millisecond timestamp of 2025-12-20T00:00:00Z, which is UTC day 20442. -/
def startEpoch : Int := 1766188800000

/-- getSafeIndex from both selector variants:
`if (!length) return 0; return ((rawIndex % length) + length) % length;`.
JavaScript `%` is truncated remainder (`Int.tmod`). -/
def getSafeIndex (rawIndex length : Int) : Int :=
  if length = 0 then 0 else ((rawIndex.tmod length) + length).tmod length

/-- getDayNumber from `src/unnamed/part_001`, as a function of `now`:
returns 1 before the start epoch, else `Math.floor(diff / msPerDay) + 1`. -/
def getDayNumber (now : Int) : Int :=
  if now < startEpoch then 1
  else (now - startEpoch).fdiv msPerDay + 1

/-- getUtcDay from `src/unnamed/part_000`, as a function of `now`:
`Math.floor(Date.now() / CONFIG.msPerDay)`. -/
def getUtcDay (now : Int) : Int :=
  now.fdiv msPerDay

/-- The truncated remainder is above the negation of a positive modulus. -/
lemma neg_lt_tmod (x n : Int) (hn : 0 < n) : -n < x.tmod n := by
  rcases le_or_lt 0 x with hx | hx
  · have h0 : (0 : Int) ≤ x.tmod n := Int.tmod_nonneg n hx
    omega
  · have h1 : (-x).tmod n < n := Int.tmod_lt_of_pos (-x) hn
    have h2 : (-x).tmod n = -(x.tmod n) := by
      simp [Int.tmod_def, Int.neg_tdiv]; ring
    omega

/-- For a positive modulus, getSafeIndex computes the Euclidean remainder. -/
lemma getSafeIndex_eq_emod (x n : Int) (hn : 0 < n) :
    getSafeIndex x n = x % n := by
  have hne : n ≠ 0 := ne_of_gt hn
  unfold getSafeIndex
  rw [if_neg hne]
  have hlow : -n < x.tmod n := neg_lt_tmod x n hn
  have hnn : (0 : Int) ≤ x.tmod n + n := by omega
  rw [Int.tmod_eq_emod hnn (le_of_lt hn), Int.add_emod_self]
  rw [Int.tmod_def]
  have h : x - n * x.tdiv n = x + (-(x.tdiv n)) * n := by ring
  rw [h, Int.add_mul_emod_self]

/-- C1: for every integer x and every n > 0, getSafeIndex(x, n) lies in
[0, n); getSafeIndex(x, 0) = 0; getSafeIndex(-1, 5) = 4 and
getSafeIndex(7, 5) = 2. -/
theorem getSafeIndex_range (x n : Int) :
    (0 < n → 0 ≤ getSafeIndex x n ∧ getSafeIndex x n < n) ∧
    getSafeIndex x 0 = 0 ∧
    getSafeIndex (-1) 5 = 4 ∧ getSafeIndex 7 5 = 2 := by
  refine ⟨fun hn => ?_, rfl, by decide, by decide⟩
  rw [getSafeIndex_eq_emod x n hn]
  exact ⟨Int.emod_nonneg x (ne_of_gt hn), Int.emod_lt_of_pos x hn⟩

/-- Witness for C1 at x = -1, n = 5: the bounds hold concretely. -/
theorem getSafeIndex_range_witness :
    0 ≤ getSafeIndex (-1) 5 ∧ getSafeIndex (-1) 5 < 5 :=
  (getSafeIndex_range (-1) 5).1 (by decide)

/-- getDayNumber agrees with the closed form `max 1 (fdiv (now - epoch) msPerDay + 1)`. -/
lemma getDayNumber_eq_max (now : Int) :
    getDayNumber now = max 1 ((now - startEpoch).fdiv msPerDay + 1) := by
  unfold getDayNumber
  rw [Int.fdiv_eq_ediv _ (by norm_num [msPerDay] : (0 : Int) ≤ msPerDay)]
  by_cases h : now < startEpoch
  · rw [if_pos h]
    have hneg : (now - startEpoch) / msPerDay < 0 :=
      Int.ediv_neg' (by omega) (by norm_num [msPerDay])
    exact (max_eq_left (by omega)).symm
  · rw [if_neg h]
    have hpos : 0 ≤ (now - startEpoch) / msPerDay :=
      Int.ediv_nonneg (by omega) (by norm_num [msPerDay])
    exact (max_eq_right (by omega)).symm

/-- getDayNumber is monotone in the current time. -/
lemma getDayNumber_mono {a b : Int} (h : a ≤ b) :
    getDayNumber a ≤ getDayNumber b := by
  rw [getDayNumber_eq_max, getDayNumber_eq_max]
  have hd : (a - startEpoch).fdiv msPerDay ≤ (b - startEpoch).fdiv msPerDay := by
    rw [Int.fdiv_eq_ediv _ (by norm_num [msPerDay] : (0 : Int) ≤ msPerDay),
      Int.fdiv_eq_ediv _ (by norm_num [msPerDay] : (0 : Int) ≤ msPerDay)]
    exact Int.ediv_le_ediv (by norm_num [msPerDay]) (by omega)
  exact max_le_max le_rfl (by omega)

/-- C2: getDayNumber(now) equals max(1, floor((now - epoch)/86400000) + 1),
is 1 whenever now is at or before the epoch, and is non-decreasing in now. -/
theorem getDayNumber_spec (now : Int) :
    getDayNumber now = max 1 ((now - startEpoch).fdiv msPerDay + 1) ∧
    (now ≤ startEpoch → getDayNumber now = 1) ∧
    (∀ later : Int, now ≤ later → getDayNumber now ≤ getDayNumber later) := by
  refine ⟨getDayNumber_eq_max now, fun h => ?_, fun later h => getDayNumber_mono h⟩
  rw [getDayNumber_eq_max]
  rcases lt_or_eq_of_le h with h' | h'
  · have hneg : (now - startEpoch).fdiv msPerDay < 0 := by
      rw [Int.fdiv_eq_ediv _ (by norm_num [msPerDay] : (0 : Int) ≤ msPerDay)]
      exact Int.ediv_neg' (by omega) (by norm_num [msPerDay])
    exact max_eq_left (by omega)
  · subst h'
    simp [msPerDay]

/-- Witness for C2 at now = startEpoch - 1: the day number is clamped to 1,
and getDayNumber is non-decreasing from there to startEpoch. -/
theorem getDayNumber_spec_witness :
    getDayNumber (startEpoch - 1) = 1 ∧
    getDayNumber (startEpoch - 1) ≤ getDayNumber startEpoch :=
  ⟨(getDayNumber_spec (startEpoch - 1)).2.1 (by norm_num [startEpoch]),
   (getDayNumber_spec (startEpoch - 1)).2.2 startEpoch (by norm_num [startEpoch])⟩

/-- Boot-time index of the variant in `src/unnamed/part_000`:
`getSafeIndex(state.utcDay, state.thoughts.length)` with
`state.utcDay = getUtcDay()`. -/
def todayIdxV0 (now length : Int) : Int :=
  getSafeIndex (getUtcDay now) length

/-- Boot-time index of the variant in `src/unnamed/part_001`:
`getSafeIndex(state.dayNumber - 1, state.thoughts.length)` with
`state.dayNumber = getDayNumber()`. -/
def todayIdxV1 (now length : Int) : Int :=
  getSafeIndex (getDayNumber now - 1) length

/-- C10 counterexample: at now = startEpoch with 5 records, part_000 boots at
index 2 while part_001 boots at index 0, so the two variants are not
equivalent at boot. -/
theorem todayIdx_variants_differ :
    todayIdxV0 startEpoch 5 = 2 ∧ todayIdxV1 startEpoch 5 = 0 ∧
    todayIdxV0 startEpoch 5 ≠ todayIdxV1 startEpoch 5 := by
  refine ⟨by decide, by decide, by decide⟩

/-- C10 (amended): for now at or after the epoch and a positive record count,
the part_000 boot index equals the part_001 boot index shifted by the
constant 20442 (the epoch's UTC day number); the two variants agree exactly
when 20442 is a multiple of the record count. -/
theorem todayIdx_variants_offset (now length : Int) (hl : 0 < length)
    (hnow : startEpoch ≤ now) :
    todayIdxV0 now length = getSafeIndex (getDayNumber now - 1 + 20442) length ∧
    ((20442 : Int) % length = 0 → todayIdxV0 now length = todayIdxV1 now length) := by
  have hms : (0 : Int) ≤ msPerDay := by norm_num [msPerDay]
  have hday : getDayNumber now - 1 = (now - startEpoch).fdiv msPerDay := by
    unfold getDayNumber
    rw [if_neg (by omega)]
    ring
  have hutc : getUtcDay now = (now - startEpoch).fdiv msPerDay + 20442 := by
    unfold getUtcDay
    rw [Int.fdiv_eq_ediv _ hms, Int.fdiv_eq_ediv _ hms]
    have hsplit : now = (now - startEpoch) + 20442 * msPerDay := by
      norm_num [startEpoch, msPerDay]
    nth_rewrite 1 [hsplit]
    exact Int.add_mul_ediv_right (now - startEpoch) 20442
      (show msPerDay ≠ 0 by norm_num [msPerDay])
  constructor
  · unfold todayIdxV0
    rw [hutc, hday]
  · intro hdvd
    unfold todayIdxV0 todayIdxV1
    rw [hutc, ← hday]
    rw [getSafeIndex_eq_emod _ _ hl, getSafeIndex_eq_emod _ _ hl]
    rw [Int.add_emod, hdvd, add_zero, Int.emod_emod_of_dvd _ dvd_rfl]

/-- Witness for the amended C10 at now = startEpoch, length = 1 (1 divides
20442, so both variants boot at index 0). -/
theorem todayIdx_variants_offset_witness :
    todayIdxV0 startEpoch 1 = getSafeIndex (getDayNumber startEpoch - 1 + 20442) 1 ∧
    todayIdxV0 startEpoch 1 = todayIdxV1 startEpoch 1 :=
  ⟨(todayIdx_variants_offset startEpoch 1 (by decide) le_rfl).1,
   (todayIdx_variants_offset startEpoch 1 (by decide) le_rfl).2 (by decide)⟩

/-- Thought record from the data model: `{ id, text, reflection, tags }`,
with `tags` optional (`t.tags` may be absent). -/
structure Thought where
  id : Int
  text : List Char
  reflection : List Char
  tags : Option (List (List Char))
  deriving DecidableEq

/-- viewMode values of the selector state in both variants. -/
inductive ViewMode where
  | today
  | yesterday
  | random
  deriving DecidableEq

/-- Selector state of `src/unnamed/part_001`:
`{ thoughts, viewMode, currentIdx, dayNumber }`. -/
structure SelectorState where
  thoughts : List Thought
  viewMode : ViewMode
  currentIdx : Int
  dayNumber : Int
  deriving DecidableEq

/-- goToday from `src/unnamed/part_001`: mode becomes today and the index is
recomputed from the anchored day number. -/
def goToday (s : SelectorState) : SelectorState :=
  { s with viewMode := ViewMode.today,
           currentIdx := getSafeIndex (s.dayNumber - 1) (s.thoughts.length : Int) }

/-- goYesterday from `src/unnamed/part_001`: recomputes today's index from
the day number, then steps one back with wraparound. -/
def goYesterday (s : SelectorState) : SelectorState :=
  let todayIdx := getSafeIndex (s.dayNumber - 1) (s.thoughts.length : Int)
  { s with viewMode := ViewMode.yesterday,
           currentIdx := getSafeIndex (todayIdx - 1) (s.thoughts.length : Int) }

/-- goRandom from `src/unnamed/part_001`:
`Math.floor(Math.random() * state.thoughts.length)`, with the draw of
`Math.random()` passed in as a rational `r` in `[0, 1)`. -/
def goRandom (r : ℚ) (s : SelectorState) : SelectorState :=
  { s with viewMode := ViewMode.random,
           currentIdx := ⌊r * (s.thoughts.length : ℚ)⌋ }

/-- Successful part of init from `src/unnamed/part_001` (after the fetch
succeeded and the nonempty check passed): anchor the day number, derive
today's index, set mode today. -/
def initSuccess (now : Int) (thoughts : List Thought) : SelectorState :=
  let dn := getDayNumber now
  { thoughts := thoughts, viewMode := ViewMode.today,
    currentIdx := getSafeIndex (dn - 1) (thoughts.length : Int), dayNumber := dn }

/-- State transition of updateCountdown from `src/unnamed/part_001`, as a
function of the computed diff to next UTC midnight and the current time:
on rollover (diff ≤ 0 and a larger recomputed day number) the day number is
stored and, in today mode only, goToday refreshes the index. -/
def updateCountdownStep (diff now : Int) (s : SelectorState) : SelectorState :=
  if diff ≤ 0 then
    let newDayNum := getDayNumber now
    if s.dayNumber < newDayNum then
      let s1 := { s with dayNumber := newDayNum }
      if s1.viewMode = ViewMode.today then goToday s1 else s1
    else s
  else s

/-- C5: goYesterday run twice yields the same index as running it once, and
more generally its result never depends on the currently displayed index. -/
theorem goYesterday_idempotent (s : SelectorState) (h : s.thoughts ≠ []) :
    (goYesterday (goYesterday s)).currentIdx = (goYesterday s).currentIdx ∧
    (∀ i : Int, (goYesterday { s with currentIdx := i }).currentIdx =
      (goYesterday s).currentIdx) := by
  constructor
  · simp [goYesterday]
  · intro i
    simp [goYesterday]

/-- Sample record used to instantiate the state-machine theorems. -/
def sampleThought : Thought :=
  { id := 1, text := ['a'], reflection := ['b'], tags := none }

/-- Sample selector state with one record, used by witnesses. -/
def sampleState : SelectorState :=
  { thoughts := [sampleThought], viewMode := ViewMode.today,
    currentIdx := 0, dayNumber := 1 }

/-- Witness for C5 on a concrete one-record state. -/
theorem goYesterday_idempotent_witness :
    (goYesterday (goYesterday sampleState)).currentIdx =
      (goYesterday sampleState).currentIdx :=
  (goYesterday_idempotent sampleState (by decide)).1

/-- The selector-state invariant from the data model: currentIdx is an
integer in [0, thoughts.length). -/
def idxInv (s : SelectorState) : Prop :=
  0 ≤ s.currentIdx ∧ s.currentIdx < (s.thoughts.length : Int)

instance (s : SelectorState) : Decidable (idxInv s) := by
  unfold idxInv
  infer_instance

/-- getSafeIndex lands in range for a positive length. -/
lemma getSafeIndex_mem (x n : Int) (hn : 0 < n) :
    0 ≤ getSafeIndex x n ∧ getSafeIndex x n < n :=
  (getSafeIndex_range x n).1 hn

/-- goToday establishes the index invariant on a nonempty store. -/
lemma idxInv_goToday (s : SelectorState) (h : s.thoughts ≠ []) :
    idxInv (goToday s) := by
  have hl : 0 < (s.thoughts.length : Int) := by
    exact_mod_cast List.length_pos.mpr h
  exact getSafeIndex_mem (s.dayNumber - 1) _ hl

/-- goYesterday establishes the index invariant on a nonempty store. -/
lemma idxInv_goYesterday (s : SelectorState) (h : s.thoughts ≠ []) :
    idxInv (goYesterday s) := by
  have hl : 0 < (s.thoughts.length : Int) := by
    exact_mod_cast List.length_pos.mpr h
  exact getSafeIndex_mem _ _ hl

/-- goRandom establishes the index invariant when the uniform draw lies in
[0, 1) and the store is nonempty. -/
lemma idxInv_goRandom (s : SelectorState) (r : ℚ) (h : s.thoughts ≠ [])
    (hr0 : 0 ≤ r) (hr1 : r < 1) : idxInv (goRandom r s) := by
  have hl : 0 < (s.thoughts.length : ℚ) := by
    exact_mod_cast List.length_pos.mpr h
  constructor
  · exact Int.floor_nonneg.mpr (mul_nonneg hr0 (le_of_lt hl))
  · show ⌊r * (s.thoughts.length : ℚ)⌋ < (s.thoughts.length : Int)
    rw [Int.floor_lt]
    push_cast
    exact mul_lt_of_lt_one_left hl hr1

/-- C6: every Daily Selector operation (successful init, goToday,
goYesterday, goRandom with draw in [0,1), and the countdown rollover step)
leaves currentIdx in [0, thoughts.length) on a nonempty store. -/
theorem selector_currentIdx_invariant (s : SelectorState) (now diff : Int)
    (r : ℚ) (hne : s.thoughts ≠ []) (hr0 : 0 ≤ r) (hr1 : r < 1) :
    idxInv (initSuccess now s.thoughts) ∧
    idxInv (goToday s) ∧
    idxInv (goYesterday s) ∧
    idxInv (goRandom r s) ∧
    (idxInv s → idxInv (updateCountdownStep diff now s)) := by
  have hl : 0 < (s.thoughts.length : Int) := by
    exact_mod_cast List.length_pos.mpr hne
  refine ⟨getSafeIndex_mem _ _ hl, idxInv_goToday s hne, idxInv_goYesterday s hne,
    idxInv_goRandom s r hne hr0 hr1, fun hinv => ?_⟩
  simp only [updateCountdownStep]
  split_ifs
  · exact idxInv_goToday _ hne
  · exact hinv
  · exact hinv
  · exact hinv

/-- Witness for C6 on a concrete one-record state with draw r = 1/2. -/
theorem selector_currentIdx_invariant_witness :
    idxInv (initSuccess 0 sampleState.thoughts) ∧ idxInv (goToday sampleState) :=
  ⟨(selector_currentIdx_invariant sampleState 0 0 (1/2) (by decide)
      (by norm_num) (by norm_num)).1,
   (selector_currentIdx_invariant sampleState 0 0 (1/2) (by decide)
      (by norm_num) (by norm_num)).2.1⟩

/-- C7: in the countdown tick with diff ≤ 0 and an increased recomputed day
number, the day number is stored; only in today mode is the index
recomputed (via goToday), while in yesterday or random mode both currentIdx
and viewMode are untouched by the rollover. -/
theorem updateCountdown_rollover (s : SelectorState) (diff now : Int)
    (hdiff : diff ≤ 0) (hinc : s.dayNumber < getDayNumber now) :
    (updateCountdownStep diff now s).dayNumber = getDayNumber now ∧
    (s.viewMode = ViewMode.today →
      (updateCountdownStep diff now s).currentIdx =
        getSafeIndex (getDayNumber now - 1) (s.thoughts.length : Int) ∧
      (updateCountdownStep diff now s).viewMode = ViewMode.today) ∧
    (s.viewMode ≠ ViewMode.today →
      (updateCountdownStep diff now s).currentIdx = s.currentIdx ∧
      (updateCountdownStep diff now s).viewMode = s.viewMode) := by
  by_cases hv : s.viewMode = ViewMode.today
  · refine ⟨?_, fun _ => ⟨?_, ?_⟩, fun hne => absurd hv hne⟩ <;>
      simp [updateCountdownStep, goToday, hdiff, hinc, hv]
  · refine ⟨?_, fun hy => absurd hy hv, fun _ => ⟨?_, ?_⟩⟩ <;>
      simp [updateCountdownStep, goToday, hdiff, hinc, hv]

/-- Witness for C7 on a concrete one-record state one day after the epoch. -/
theorem updateCountdown_rollover_witness :
    (updateCountdownStep 0 (startEpoch + msPerDay) sampleState).dayNumber =
      getDayNumber (startEpoch + msPerDay) ∧
    (updateCountdownStep 0 (startEpoch + msPerDay) sampleState).currentIdx =
      getSafeIndex (getDayNumber (startEpoch + msPerDay) - 1)
        (sampleState.thoughts.length : Int) :=
  ⟨(updateCountdown_rollover sampleState 0 (startEpoch + msPerDay)
      le_rfl (by norm_num [sampleState, getDayNumber, startEpoch, msPerDay])).1,
   ((updateCountdown_rollover sampleState 0 (startEpoch + msPerDay)
      le_rfl (by norm_num [sampleState, getDayNumber, startEpoch, msPerDay])).2.1
      (by decide)).1⟩

/-- JavaScript `toLowerCase()` on a string modelled as a character list. -/
def jsToLower (s : List Char) : List Char :=
  s.map Char.toLower

/-- JavaScript `trim()`: strip whitespace from both ends. -/
def jsTrim (s : List Char) : List Char :=
  ((s.dropWhile Char.isWhitespace).reverse.dropWhile Char.isWhitespace).reverse

/-- JavaScript `String.prototype.includes`: substring containment. -/
def jsIncludes (s sub : List Char) : Bool :=
  decide (sub <:+: s)

/-- Text predicate of the archive filter in `src/unnamed/part_002`:
`t.text.toLowerCase().includes(query) || t.reflection.toLowerCase().includes(query)`. -/
def textMatch (t : Thought) (query : List Char) : Bool :=
  jsIncludes (jsToLower t.text) query || jsIncludes (jsToLower t.reflection) query

/-- Tag predicate of the archive filter in `src/unnamed/part_002`:
`activeTag ? (t.tags && t.tags.includes(activeTag)) : true`. -/
def tagMatch (t : Thought) (activeTag : Option (List Char)) : Bool :=
  match activeTag with
  | none => true
  | some tag =>
    match t.tags with
    | none => false
    | some tags => tags.contains tag

/-- filterAndRender from `src/unnamed/part_002`, restricted to the filtered
list it renders: the search box value is lower-cased then trimmed, and each
record must pass both the text and the tag predicate. -/
def filterAndRender (thoughts : List Thought) (searchValue : List Char)
    (activeTag : Option (List Char)) : List Thought :=
  let query := jsTrim (jsToLower searchValue)
  thoughts.filter (fun t => textMatch t query && tagMatch t activeTag)

/-- The empty query passes the text predicate on every record. -/
lemma textMatch_nil (t : Thought) : textMatch t [] = true := by
  simp [textMatch, jsIncludes]

/-- C3: the rendered archive set is exactly the records passing both the
text predicate (case-insensitive substring of the trimmed lower-cased
query, against text or reflection) and the tag predicate (vacuous for a
null tag); the output is a sublist of the input (original order), and the
empty query with no active tag renders every record in order. -/
theorem filterAndRender_spec (thoughts : List Thought) (searchValue : List Char)
    (activeTag : Option (List Char)) :
    (∀ r : Thought, r ∈ filterAndRender thoughts searchValue activeTag ↔
      r ∈ thoughts ∧
      textMatch r (jsTrim (jsToLower searchValue)) = true ∧
      tagMatch r activeTag = true) ∧
    List.Sublist (filterAndRender thoughts searchValue activeTag) thoughts ∧
    filterAndRender thoughts [] none = thoughts := by
  refine ⟨fun r => ?_, ?_, ?_⟩
  · simp [filterAndRender, List.mem_filter]
  · exact List.filter_sublist thoughts
  · simp [filterAndRender, jsTrim, jsToLower, tagMatch, textMatch_nil]

/-- Record whose reflection alone contains the query "risk" case-varied. -/
def riskThought : Thought :=
  { id := 2, text := ['m'], reflection := ['R', 'i', 's', 'k', '!'],
    tags := none }

/-- Witness for C3: the record matched only through its reflection, with a
case difference, is rendered for query "risk" with no active tag. -/
theorem filterAndRender_spec_witness :
    riskThought ∈ filterAndRender [riskThought] ['r', 'i', 's', 'k'] none :=
  ((filterAndRender_spec [riskThought] ['r', 'i', 's', 'k'] none).1
    riskThought).mpr ⟨by decide, by decide, by decide⟩

/-- Visible page state driven by showLoading / showContent / showError. -/
inductive View where
  | loading
  | content
  | error
  deriving DecidableEq

/-- Resulting view of init in `src/unnamed/part_001` as a function of the
fetch outcome (`none` models a failed fetch or unparsable body): a failure
or an empty record list throws, landing in showError; otherwise the content
is shown. -/
def selectorInitView (fetched : Option (List Thought)) : View :=
  match fetched with
  | none => View.error
  | some ts => if ts.length = 0 then View.error else View.content

/-- Resulting view of init in `src/unnamed/part_002` as a function of the
fetch outcome: only a failed fetch reaches the catch block that reveals the
error element; a successful fetch always proceeds to render, even with zero
records (there is no emptiness check). -/
def archiveInitView (fetched : Option (List Thought)) : View :=
  match fetched with
  | none => View.error
  | some _ => View.content

/-- C4 counterexample: an empty fetched dataset does not put the Archive
Browser in its error state — `src/unnamed/part_002` renders an empty grid
instead. -/
theorem archiveInit_empty_not_error :
    archiveInitView (some []) = View.content ∧
    archiveInitView (some []) ≠ View.error := by
  exact ⟨rfl, by decide⟩

/-- C4 (amended): the Daily Selector enters its error state on a failed
fetch or an empty dataset, and shows content otherwise; the Archive Browser
enters its error state only on a failed fetch, and shows content (an empty
grid) for every successfully fetched dataset, empty ones included. -/
theorem initView_error_states :
    selectorInitView none = View.error ∧
    selectorInitView (some []) = View.error ∧
    (∀ ts : List Thought, ts ≠ [] → selectorInitView (some ts) = View.content) ∧
    archiveInitView none = View.error ∧
    (∀ ts : List Thought, archiveInitView (some ts) = View.content) := by
  refine ⟨rfl, rfl, fun ts hts => ?_, rfl, fun ts => rfl⟩
  show (if ts.length = 0 then View.error else View.content) = View.content
  rw [if_neg (by simpa using hts)]

/-- Witness for the amended C4 on the one-record dataset. -/
theorem initView_error_states_witness :
    selectorInitView (some [sampleThought]) = View.content ∧
    archiveInitView (some [sampleThought]) = View.content :=
  ⟨initView_error_states.2.2.1 [sampleThought] (by decide),
   initView_error_states.2.2.2.2 [sampleThought]⟩

/-- Click handler of a tag chip in `src/unnamed/part_002` (createChip):
`if (activeTag === value) activeTag = null; else activeTag = value;`. -/
def chipClick (activeTag value : Option (List Char)) : Option (List Char) :=
  if activeTag = value then none else value

/-- C9: clicking the active chip clears the filter, clicking any other chip
replaces the active tag with the clicked value, and after any click the
resulting filter holds at most the clicked tag. -/
theorem chipClick_toggle (activeTag value : Option (List Char)) :
    (activeTag = value → chipClick activeTag value = none) ∧
    (activeTag ≠ value → chipClick activeTag value = value) ∧
    (chipClick activeTag value = none ∨ chipClick activeTag value = value) := by
  unfold chipClick
  by_cases h : activeTag = value
  · rw [if_pos h]
    exact ⟨fun _ => rfl, fun hne => absurd h hne, Or.inl rfl⟩
  · rw [if_neg h]
    exact ⟨fun he => absurd he h, fun _ => rfl, Or.inr rfl⟩

/-- Witness for C9: clicking the active tag "x" clears it, and clicking
tag "y" while "x" is active replaces it. -/
theorem chipClick_toggle_witness :
    chipClick (some ['x']) (some ['x']) = none ∧
    chipClick (some ['x']) (some ['y']) = some ['y'] :=
  ⟨(chipClick_toggle (some ['x']) (some ['x'])).1 rfl,
   (chipClick_toggle (some ['x']) (some ['y'])).2.1 (by decide)⟩

/-- State touched by `src/js/theme.js`: the persisted preference under the
`taw-theme` key, and the two document attributes the script writes
(`data-theme` and `data-theme-override`). -/
structure ThemeState where
  stored : Option String
  dataTheme : Option String
  dataThemeOverride : Option String
  deriving DecidableEq

/-- getTheme from `src/js/theme.js`:
`localStorage.getItem(STORAGE_KEY) || 'system'`. -/
def getTheme (s : ThemeState) : String :=
  s.stored.getD "system"

/-- applyTheme from `src/js/theme.js`, with the OS prefers-dark signal as a
parameter: `system` resolves against the OS signal into `data-theme` and
removes the override attribute; an explicit theme is written to
`data-theme-override`. -/
def applyTheme (theme : String) (osDark : Bool) (s : ThemeState) : ThemeState :=
  if theme = "system" then
    { s with dataTheme := some (if osDark then "dark" else "light"),
             dataThemeOverride := none }
  else
    { s with dataThemeOverride := some theme }

/-- setTheme from `src/js/theme.js`: persist the selection, then apply it. -/
def setTheme (theme : String) (osDark : Bool) (s : ThemeState) : ThemeState :=
  applyTheme theme osDark { s with stored := some theme }

/-- The matchMedia change listener from `src/js/theme.js`:
`if (getTheme() === 'system') applyTheme('system')`. -/
def osChangeStep (osDark : Bool) (s : ThemeState) : ThemeState :=
  if getTheme s = "system" then applyTheme "system" osDark s else s

/-- Modelled from the spec: the displayed theme is resolved by the style
sheet, which is not part of the repository sources; per the spec an
explicit override attribute wins over the system-resolved `data-theme`
attribute ("explicit light/dark are sticky regardless of OS signal"). -/
def displayedTheme (s : ThemeState) : String :=
  s.dataThemeOverride.getD (s.dataTheme.getD "light")

/-- C8: an OS prefers-dark change never touches the persisted preference;
it is a no-op on the whole theme state unless the persisted preference is
`system`, in which case the displayed theme is re-resolved from the OS
signal; and after the user selects `light`, the displayed theme stays
`light` under any later OS signal. -/
theorem theme_osChange_spec (s : ThemeState) (osDark : Bool) :
    (osChangeStep osDark s).stored = s.stored ∧
    (getTheme s ≠ "system" → osChangeStep osDark s = s) ∧
    (getTheme s = "system" →
      displayedTheme (osChangeStep osDark s) =
        (if osDark then "dark" else "light")) ∧
    (∀ laterOs : Bool,
      displayedTheme (osChangeStep laterOs (setTheme "light" osDark s)) =
        "light") := by
  refine ⟨?_, fun hns => ?_, fun hs => ?_, fun laterOs => ?_⟩
  · unfold osChangeStep applyTheme
    by_cases h : getTheme s = "system"
    · rw [if_pos h, if_pos rfl]
    · rw [if_neg h]
  · unfold osChangeStep
    rw [if_neg hns]
  · unfold osChangeStep applyTheme displayedTheme
    rw [if_pos hs, if_pos rfl]
    simp
  · have hlight : getTheme (setTheme "light" osDark s) = "light" := by
      unfold setTheme applyTheme getTheme
      rw [if_neg (by decide)]
      rfl
    unfold osChangeStep
    rw [if_neg (by rw [hlight]; decide)]
    unfold setTheme applyTheme displayedTheme
    rw [if_neg (by decide)]
    rfl

/-- Boot-time theme state: nothing persisted, no attributes written yet. -/
def themeBoot : ThemeState :=
  { stored := none, dataTheme := none, dataThemeOverride := none }

/-- Witness for C8 from the boot state with the OS reporting dark: the
persisted value is untouched, `system` resolves to dark, and a later
explicit light selection stays light. -/
theorem theme_osChange_spec_witness :
    (osChangeStep true themeBoot).stored = none ∧
    displayedTheme (osChangeStep true themeBoot) = "dark" ∧
    displayedTheme (osChangeStep true (setTheme "light" true themeBoot)) =
      "light" :=
  ⟨(theme_osChange_spec themeBoot true).1,
   (theme_osChange_spec themeBoot true).2.2.1 rfl,
   (theme_osChange_spec themeBoot true).2.2.2 true⟩
